import Mathlib

/-!
Verification of the z3_mcp repository core against its specification.

The repository has two pipelines built over the Z3 Python bindings:

* `src/z3_mcp/core/solver.py` — a typed constraint-problem solver
  (variable declaration, textual constraint compilation, one
  satisfiability check, typed value extraction);
* `src/z3_poc/core/relationships.py` — a relationship-entailment engine
  (uninterpreted binary predicates over string-sorted entity constants,
  a hard-coded sibling symmetry axiom, and a two-sided entailment test
  by refutation).

The Z3 backend is modelled as an oracle for the `check()` call
(`List Formula → Except String CheckSatResult`: an `Except.error`
models a Python exception raised by the binding).  Solver state
(assertions plus push/pop scope marks) is passed explicitly.  Model
values are taken at their canonical string form, exactly as the Python
code consumes them (`str(z3_value)`); Python floats are modelled as
exact rationals (the one concrete value the specification fixes, 5/2 =
2.5, is exactly representable).  Python string helpers (`split`,
`strip`, `int`, `float`, `in`) are reimplemented structurally below so
that every definition evaluates inside the kernel.
-/

/-! ## Python string primitives -/

/-- Python `str.split(sep)` for a one-character separator, on lists of
characters: accumulates the current fragment and cuts at each
separator occurrence. -/
def splitCharAux (sep : Char) : List Char → List Char → List (List Char)
  | [], acc => [acc.reverse]
  | c :: cs, acc =>
    if c = sep then acc.reverse :: splitCharAux sep cs []
    else splitCharAux sep cs (c :: acc)

/-- Python `s.split(sep)` for a one-character separator (all separators
used by the repository — `(`, `)`, `,`, `/`, `.` — are one character). -/
def pySplit (s : String) (sep : Char) : List String :=
  (splitCharAux sep s.data []).map (fun l => ⟨l⟩)

/-- Python `c in s` for a one-character needle. -/
def pyContains (s : String) (c : Char) : Bool :=
  s.data.contains c

/-- Python whitespace, as far as the repository's inputs exercise it. -/
def pyIsSpace (c : Char) : Bool :=
  c == ' ' || c == '\t' || c == '\n' || c == '\r'

/-- Python `s.strip()`: drop whitespace from both ends. -/
def pyStrip (s : String) : String :=
  ⟨((s.data.dropWhile pyIsSpace).reverse.dropWhile pyIsSpace).reverse⟩

/-- Digit value of a character, `none` on a non-digit. -/
def digitVal (c : Char) : Option Nat :=
  if c.isDigit then some (c.toNat - 48) else none

/-- Read a non-empty digit string as a natural number. -/
def natOfDigitsAux : List Char → Nat → Option Nat
  | [], acc => some acc
  | c :: cs, acc =>
    match digitVal c with
    | none => none
    | some d => natOfDigitsAux cs (acc * 10 + d)

/-- Read a digit list as a natural number; empty input fails, as
Python `int("")` raises. -/
def natOfDigits (l : List Char) : Option Nat :=
  if l.isEmpty then none else natOfDigitsAux l 0

/-- Python `int(s)` on the canonical integer strings Z3 produces:
an optional sign followed by digits.  `none` models the `ValueError`
the surrounding `except` clauses catch. -/
def pyInt (s : String) : Option Int :=
  match s.data with
  | '-' :: rest => (natOfDigits rest).map (fun n => -(n : Int))
  | '+' :: rest => (natOfDigits rest).map (fun n => (n : Int))
  | ds => (natOfDigits ds).map (fun n => (n : Int))

/-- Python `float(s)` on an unsigned decimal string (`"3"`, `"1.25"`),
valued in exact rationals. -/
def decimalPos (l : List Char) : Option ℚ :=
  match splitCharAux '.' l [] with
  | [w] => (natOfDigits w).map (fun n => (n : ℚ))
  | [w, f] =>
    match natOfDigits w, natOfDigits f with
    | some n, some m => some ((n : ℚ) + (m : ℚ) / (10 : ℚ) ^ f.length)
    | _, _ => none
  | _ => none

/-- Python `float(s)` on a plain decimal string with optional sign;
`none` models a `ValueError`.  (Exponent forms and bare `".5"` / `"2."`
are not modelled: Z3 canonical numerals never produce them.) -/
def pyFloat (s : String) : Option ℚ :=
  match s.data with
  | '-' :: rest => (decimalPos rest).map Neg.neg
  | '+' :: rest => decimalPos rest
  | l => decimalPos l

deriving instance DecidableEq for Except

/-! ## The Z3 backend interface shared by both pipelines -/

/-- `z3.CheckSatResult`: the three answers of `Solver.check()`.  Its
Python `str()` forms are `"sat"`, `"unsat"`, `"unknown"`. -/
inductive CheckSatResult
  | sat
  | unsat
  | unknown
deriving DecidableEq

/-- Python `str(result)` on a `CheckSatResult`. -/
def CheckSatResult.toStr : CheckSatResult → String
  | .sat => "sat"
  | .unsat => "unsat"
  | .unknown => "unknown"

/-! ## src/z3_mcp/core/solver.py — the constraint-problem pipeline -/

namespace Z3MCP

/-- The sort of a declared Z3 symbol, as probed at extraction time by
`is_bool` / `is_int` / `is_real` (anything else falls to the string
case). -/
inductive Z3SortTag
  | bool
  | int
  | real
  | other
deriving DecidableEq

/-- A Z3 expression reference for a declared variable (`Int(name)`,
`Real(name)`, `Bool(name)`, `String(name)`): a name with its sort. -/
structure Z3Var where
  name : String
  sort : Z3SortTag
deriving DecidableEq

/-- A backend model value as the Python code consumes it: its canonical
string form `str(z3_value)` together with the truth value `is_true`
reports (meaningful at boolean sort). -/
structure ModelVal where
  str : String
  istrue : Bool
deriving DecidableEq

/-- `z3.ModelRef`, restricted to the one operation used
(`model[z3_var]`, `None` when the model does not bind the symbol). -/
def ModelRef := Z3Var → Option ModelVal

/-- `Z3Value = bool | int | float | str` from
`src/z3_mcp/models/constraints.py`; floats are modelled as exact
rationals. -/
inductive Z3Value
  | b (x : Bool)
  | i (x : Int)
  | r (x : ℚ)
  | s (x : String)
deriving DecidableEq

/-- `Solution` from `src/z3_mcp/models/constraints.py`.  The `values`
dict is an association list (Python dict keys are the variable names,
unique per problem). -/
structure Solution where
  values : List (String × Z3Value)
  is_satisfiable : Bool
  status : String
deriving DecidableEq

/-- `get_z3_value` (solver.py:163): sort-directed conversion of a model
value, `none` (Python `Nothing`) when the model has no binding or any
conversion step raises.  The real case follows the code exactly:
`str(z3_value)` is split on `/` and the two parts are divided
(`float(int(p)) / float(int(q))`; a zero denominator raises
`ZeroDivisionError`, caught as `Nothing`); without a `/` the string is
parsed as a plain float. -/
def get_z3_value (model : ModelRef) (z3_var : Z3Var) : Option Z3Value :=
  match model z3_var with
  | none => none
  | some zv =>
    let str_value := zv.str
    match z3_var.sort with
    | .bool => some (.b zv.istrue)
    | .int => (pyInt str_value).map .i
    | .real =>
      if pyContains str_value '/' then
        match pySplit str_value '/' with
        | [num_str, den_str] =>
          match pyInt num_str, pyInt den_str with
          | some p, some q => if q = 0 then none else some (.r ((p : ℚ) / (q : ℚ)))
          | _, _ => none
        | _ => none
      else (pyFloat str_value).map .r
    | .other => some (.s str_value)

/-- `extract_solution` (solver.py:200): `status` is the literal string
form of the check result, `is_satisfiable` is `result == sat`, and
`values` is populated only in the satisfiable-with-model case, one
entry per declared variable whose value converts (a `Nothing` from
`get_z3_value` is skipped by `maybe_value.map`). -/
def extract_solution (result : CheckSatResult) (model : Option ModelRef)
    (vars : List (String × Z3Var)) : Except String Solution :=
  let status := result.toStr
  let is_satisfiable := decide (result = CheckSatResult.sat)
  let values : List (String × Z3Value) :=
    match is_satisfiable, model with
    | true, some m =>
      vars.filterMap (fun nv => (get_z3_value m nv.2).map (fun v => (nv.1, v)))
    | _, _ => []
  .ok (Solution.mk values is_satisfiable status)

/-- `solve` (solver.py:138): one fresh solver, all constraints added,
exactly one `check()`; a model is taken only on `sat`.  The backend is
an oracle pair (check answer, model) over the asserted constraint
list. -/
def solve {α : Type} (checkO : List α → CheckSatResult) (modelO : List α → ModelRef)
    (constraints : List α) : Except String (CheckSatResult × Option ModelRef) :=
  let result := checkO constraints
  .ok (result, if result = CheckSatResult.sat then some (modelO constraints) else none)

/-- `Constraint` from `src/z3_mcp/models/constraints.py`. -/
structure Constraint where
  expression : String
  description : String := ""
deriving DecidableEq

/-- `parse_constraint` (solver.py:89).  The sandboxed `eval` of the
textual expression against the variable environment is an oracle
`evalE`; on its failure the code returns a `Failure` whose message
carries the offending expression text (Python wraps the expression in
single quotes, elided here). -/
def parse_constraint {α : Type} (evalE : List (String × Z3Var) → String → Except String α)
    (constraint : Constraint) (vars : List (String × Z3Var)) : Except String α :=
  match evalE vars constraint.expression with
  | .ok z3_constraint => .ok z3_constraint
  | .error e => .error ("Error parsing constraint " ++ constraint.expression ++ ": " ++ e)

/-- `create_constraints` (solver.py:115): compile the batch in order;
the first failure is returned as-is and compilation of the remainder
is abandoned. -/
def create_constraints {α : Type} (evalE : List (String × Z3Var) → String → Except String α)
    (constraints : List Constraint) (vars : List (String × Z3Var)) :
    Except String (List α) :=
  match constraints with
  | [] => .ok []
  | c :: rest =>
    match parse_constraint evalE c vars with
    | .ok v =>
      match create_constraints evalE rest vars with
      | .ok l => .ok (v :: l)
      | .error e => .error e
    | .error e => .error e

end Z3MCP

/-! ## src/z3_poc/core/relationships.py — the entailment pipeline -/

namespace Z3POC

/-- `Relationship` from `src/z3_poc/models/relationships.py`. -/
structure Relationship where
  person1 : String
  person2 : String
  relation : String
  value : Bool := true
deriving DecidableEq

/-- `RelationshipQuery` from `src/z3_poc/models/relationships.py`. -/
structure RelationshipQuery where
  relationships : List Relationship
  query : String
deriving DecidableEq

/-- `RelationshipResult` from `src/z3_poc/models/relationships.py`. -/
structure RelationshipResult where
  result : Bool
  explanation : String
  is_satisfiable : Bool
deriving DecidableEq

/-- `Entity` dataclass: a Z3 `Const(name, StringSort())` is identified
by its name; the `z3_const` field is optional exactly as in the
dataclass (default `None`). -/
structure Entity where
  name : String
  z3_const : Option String := none
deriving DecidableEq

/-- `Relation` dataclass: a Z3 `Function(name, StringSort(),
StringSort(), BoolSort())` is identified by its name. -/
structure Relation where
  name : String
  z3_func : Option String := none
deriving DecidableEq

/-- The formulas this pipeline ever asserts: a (possibly negated)
ground atom `rel(a, b)` over entity constants, and the quantified
symmetry axiom `ForAll x y, rel(x, y) → rel(y, x)`. -/
inductive Formula
  | lit (rel : String) (ea : String) (eb : String) (value : Bool)
  | symmetry (rel : String)
deriving DecidableEq

/-- `Not(query_expr)` as built in `evaluate_query`; only ever applied
to atoms in this pipeline. -/
def Formula.negate : Formula → Formula
  | .lit r a b v => .lit r a b (!v)
  | .symmetry r => .symmetry r

/-- A first-order interpretation of the uninterpreted symbols: each
entity constant receives a string value (distinct constants need not
receive distinct values) and each relation name a binary predicate on
strings. -/
structure Interp where
  ent : String → String
  rel : String → String → String → Bool

/-- Tarskian satisfaction for the asserted fragment. -/
def Formula.holds (I : Interp) : Formula → Prop
  | .lit r a b v => I.rel r (I.ent a) (I.ent b) = v
  | .symmetry r => ∀ x y, I.rel r x y = true → I.rel r y x = true

/-- A set of assertions is satisfiable when some interpretation makes
them all hold — the semantics the Z3 backend decides. -/
def Satisfiable (L : List Formula) : Prop :=
  ∃ I : Interp, ∀ f ∈ L, f.holds I

/-- `z3.Solver` state: the asserted formulas in order, plus the scope
stack (`push` records the current assertion count, `pop` truncates
back to the most recent mark). -/
structure SolverState where
  assertions : List Formula
  marks : List Nat
deriving DecidableEq

/-- `Solver()`: a fresh solver. -/
def SolverState.empty : SolverState := SolverState.mk [] []

/-- `solver.add(f)`. -/
def SolverState.add (s : SolverState) (f : Formula) : SolverState :=
  SolverState.mk (s.assertions ++ [f]) s.marks

/-- `solver.push()`. -/
def SolverState.push (s : SolverState) : SolverState :=
  SolverState.mk s.assertions (s.assertions.length :: s.marks)

/-- `solver.pop()` (never called on an empty scope stack in this
pipeline). -/
def SolverState.pop (s : SolverState) : SolverState :=
  match s.marks with
  | [] => s
  | k :: ms => SolverState.mk (s.assertions.take k) ms

/-- The `check()` oracle: the Z3 backend's answer on an assertion
list; `Except.error` models a raised `Z3Exception`. -/
def CheckOracle : Type :=
  List Formula → Except String CheckSatResult

/-- The distinct entity names of a fact list, both endpoints
(`create_entities` collects them into a set; only membership is
observable downstream). -/
def entityNames (relationships : List Relationship) : List String :=
  ((relationships.map Relationship.person1) ++ (relationships.map Relationship.person2)).dedup

/-- The distinct relation names of a fact list (`create_relations`). -/
def relationNames (relationships : List Relationship) : List String :=
  (relationships.map Relationship.relation).dedup

/-- `create_entity` (relationships.py:26): always succeeds, binding the
name to a string-sorted constant modelled by the name itself. -/
def create_entity (name : String) : Except String Entity :=
  .ok (Entity.mk name (some name))

/-- `create_relation` (relationships.py:73): always succeeds. -/
def create_relation (name : String) : Except String Relation :=
  .ok (Relation.mk name (some name))

/-- The entity dictionary `create_entities` builds: each distinct name
mapped to its entity. -/
def entityTable (relationships : List Relationship) : List (String × Entity) :=
  (entityNames relationships).map (fun n => (n, Entity.mk n (some n)))

/-- The relation dictionary `create_relations` builds. -/
def relationTable (relationships : List Relationship) : List (String × Relation) :=
  (relationNames relationships).map (fun n => (n, Relation.mk n (some n)))

/-- `create_entities` (relationships.py:44): collect distinct names and
create one constant per name; `create_entity` never fails, so neither
does the loop. -/
def create_entities (relationships : List Relationship) :
    Except String (List (String × Entity)) :=
  .ok (entityTable relationships)

/-- `create_relations` (relationships.py:91). -/
def create_relations (relationships : List Relationship) :
    Except String (List (String × Relation)) :=
  .ok (relationTable relationships)

/-- The fact-assertion loop of `add_relationship_assertions`
(relationships.py:135-153): for each fact look up its relation and
entities, check the optional Z3 handles, and assert the atom
(`value = true`) or its negation (`value = false`).  A failed
dictionary lookup raises `KeyError`, caught by the enclosing `except`
(never reached from `analyze_relationships`, whose tables are derived
from the same fact list). -/
def addFactAssertions (solver : SolverState) (relationships : List Relationship)
    (entities : List (String × Entity)) (relations : List (String × Relation)) :
    Except String SolverState :=
  match relationships with
  | [] => .ok solver
  | rel :: rest =>
    match relations.lookup rel.relation, entities.lookup rel.person1,
        entities.lookup rel.person2 with
    | some relation, some entity1, some entity2 =>
      match relation.z3_func, entity1.z3_const, entity2.z3_const with
      | none, _, _ => .error ("Relation " ++ rel.relation ++ " has no Z3 function")
      | some _, none, _ => .error ("Entity " ++ rel.person1 ++ " has no Z3 constant")
      | some _, some _, none => .error ("Entity " ++ rel.person2 ++ " has no Z3 constant")
      | some z3_func, some e1_const, some e2_const =>
        addFactAssertions (solver.add (Formula.lit z3_func e1_const e2_const rel.value))
          rest entities relations
    | _, _, _ => .error "Error adding relationship assertions: KeyError"

/-- `add_relationship_assertions` (relationships.py:117): assert every
fact, then — if a relation named exactly `"sibling"` was declared —
the quantified symmetry axiom, unconditionally. -/
def add_relationship_assertions (solver : SolverState)
    (relationships : List Relationship) (entities : List (String × Entity))
    (relations : List (String × Relation)) : Except String SolverState :=
  match addFactAssertions solver relationships entities relations with
  | .error e => .error e
  | .ok s1 =>
    match relations.lookup "sibling" with
    | none => .ok s1
    | some sibling_relation =>
      match sibling_relation.z3_func with
      | none => .error "Sibling relation has no Z3 function"
      | some z3_func => .ok (s1.add (Formula.symmetry z3_func))

/-- The fact literals asserted by the loop, in fact order. -/
def factLits (relationships : List Relationship) : List Formula :=
  relationships.map (fun r => Formula.lit r.relation r.person1 r.person2 r.value)

/-- The full base assertion set `F`: the facts followed by the sibling
symmetry axiom when some fact names the `"sibling"` relation. -/
def baseFormulas (relationships : List Relationship) : List Formula :=
  factLits relationships ++
    (if "sibling" ∈ relationNames relationships then [Formula.symmetry "sibling"] else [])

/-- `parse_query` (relationships.py:173): split on `(` (exactly one
required), require a `)` in the tail, take the text before the first
`)`, strip it, split on `,`, strip each argument; then the declared
relation and entities are looked up and the atom is built.  Each
deviation returns a distinct error. -/
def parse_query (query : String) (entities : List (String × Entity))
    (relations : List (String × Relation)) : Except String Formula :=
  match pySplit query '(' with
  | [p0, p1] =>
    if pyContains p1 ')' then
      let relation_name := pyStrip p0
      let entities_part := pyStrip ((pySplit p1 ')').headD "")
      let entity_names := (pySplit entities_part ',').map pyStrip
      match entity_names with
      | [n1, n2] =>
        match relations.lookup relation_name with
        | none => .error ("Unknown relation: " ++ relation_name)
        | some relation =>
          match entities.lookup n1 with
          | none => .error ("Unknown entity: " ++ n1)
          | some entity1 =>
            match entities.lookup n2 with
            | none => .error ("Unknown entity: " ++ n2)
            | some entity2 =>
              match relation.z3_func, entity1.z3_const, entity2.z3_const with
              | none, _, _ =>
                .error ("Relation " ++ relation_name ++ " has no Z3 function")
              | some _, none, _ => .error ("Entity " ++ n1 ++ " has no Z3 constant")
              | some _, some _, none => .error ("Entity " ++ n2 ++ " has no Z3 constant")
              | some z3_func, some e1_const, some e2_const =>
                .ok (Formula.lit z3_func e1_const e2_const true)
      | _ => .error ("Query must involve exactly two entities: " ++ query)
    else .error ("Invalid query format: " ++ query)
  | _ => .error ("Invalid query format: " ++ query)

/-- `evaluate_query` (relationships.py:228): two scoped probes —
push, assert `Not(Q)` (resp. `Q`), check, pop — with early return on
an unsatisfiable negation (confirmed) or an unsatisfiable query
(contradicted).  The final solver state is returned alongside the
result so scope discipline is observable; a raised check is caught by
the enclosing `except` and returned as a `Failure` with the probe
scope still pushed (the function body has no `finally`). -/
def evaluate_query (check : CheckOracle) (solver : SolverState)
    (query_expr : Formula) :
    Except String (Bool × String × Bool) × SolverState :=
  let s1 := (solver.push).add query_expr.negate
  match check s1.assertions with
  | .error e => (.error ("Error evaluating query: " ++ e), s1)
  | .ok neg_result =>
    let s2 := s1.pop
    if neg_result = CheckSatResult.unsat then
      (.ok (true, "The relationship is confirmed by the given facts.", true), s2)
    else
      let s3 := (s2.push).add query_expr
      match check s3.assertions with
      | .error e => (.error ("Error evaluating query: " ++ e), s3)
      | .ok pos_result =>
        let s4 := s3.pop
        if pos_result = CheckSatResult.unsat then
          (.ok (false, "The relationship is contradicted by the given facts.", true), s4)
        else
          (.ok (false, "The relationship is possible but not confirmed by the given facts.",
            true), s4)

/-- `analyze_relationships` (relationships.py:268): build the symbol
tables, assert the facts (and sibling axiom), parse the query, check
base satisfiability (`unsat` short-circuits to the contradictory
verdict), then run the two-sided probe. -/
def analyze_relationships (check : CheckOracle) (query : RelationshipQuery) :
    Except String RelationshipResult :=
  let solver := SolverState.empty
  match create_entities query.relationships with
  | .error e => .error e
  | .ok entities =>
    match create_relations query.relationships with
    | .error e => .error e
    | .ok relations =>
      match add_relationship_assertions solver query.relationships entities relations with
      | .error e => .error e
      | .ok s1 =>
        match parse_query query.query entities relations with
        | .error e => .error e
        | .ok query_expr =>
          match check s1.assertions with
          | .error e => .error ("Error analyzing relationships: " ++ e)
          | .ok base_result =>
            if base_result = CheckSatResult.unsat then
              .ok (RelationshipResult.mk false "The relationships are contradictory." false)
            else
              match (evaluate_query check s1 query_expr).1 with
              | .error e => .error e
              | .ok rt => .ok (RelationshipResult.mk rt.1 rt.2.1 rt.2.2)

end Z3POC

namespace Z3POC

/-! ### A decision procedure for the asserted fragment

The pipeline only ever asserts ground literals and symmetry axioms, so
satisfiability is decidable: close the literal set under the symmetry
axioms present and look for a clashing pair.  The procedure is proved
sound and complete against `Satisfiable`, which lets a concrete oracle
discharge the correctness hypotheses of the entailment theorems. -/

/-- A ground literal `rel(ea, eb) = val`. -/
structure Lit where
  rel : String
  ea : String
  eb : String
  val : Bool
deriving DecidableEq

/-- Swap the two arguments. -/
def Lit.swap (l : Lit) : Lit := Lit.mk l.rel l.eb l.ea l.val

/-- Flip the asserted truth value. -/
def Lit.flip (l : Lit) : Lit := Lit.mk l.rel l.ea l.eb (!l.val)

/-- The literal assertions of a formula list. -/
def litsOf (L : List Formula) : List Lit :=
  L.filterMap (fun f =>
    match f with
    | .lit r a b v => some (Lit.mk r a b v)
    | .symmetry _ => none)

/-- The relations with an asserted symmetry axiom. -/
def symmRels (L : List Formula) : List String :=
  L.filterMap (fun f =>
    match f with
    | .symmetry r => some r
    | .lit _ _ _ _ => none)

/-- One-step symmetry closure of the literal set (swapping is an
involution, so one step is a fixpoint). -/
def closure (L : List Formula) : List Lit :=
  litsOf L ++ (litsOf L).filterMap
    (fun l => if l.rel ∈ symmRels L then some l.swap else none)

/-- No literal occurs together with its flipped form. -/
def LitsConsistent (S : List Lit) : Prop :=
  ∀ l ∈ S, l.flip ∉ S

instance (S : List Lit) : Decidable (LitsConsistent S) :=
  inferInstanceAs (Decidable (∀ l ∈ S, l.flip ∉ S))

/-- The decision procedure: satisfiable iff the closed literal set is
clash-free. -/
def decideSat (L : List Formula) : Bool :=
  decide (LitsConsistent (closure L))

theorem mem_litsOf {L : List Formula} {l : Lit} :
    l ∈ litsOf L ↔ Formula.lit l.rel l.ea l.eb l.val ∈ L := by
  constructor
  · intro h
    obtain ⟨f, hf, he⟩ := List.mem_filterMap.mp h
    cases f with
    | lit r a b v =>
      simp only [Option.some.injEq] at he
      subst he
      exact hf
    | symmetry r => simp at he
  · intro h
    exact List.mem_filterMap.mpr ⟨Formula.lit l.rel l.ea l.eb l.val, h, rfl⟩

theorem mem_symmRels {L : List Formula} {r : String} :
    r ∈ symmRels L ↔ Formula.symmetry r ∈ L := by
  constructor
  · intro h
    obtain ⟨f, hf, he⟩ := List.mem_filterMap.mp h
    cases f with
    | lit a b c v => simp at he
    | symmetry q =>
      simp only [Option.some.injEq] at he
      subst he
      exact hf
  · intro h
    exact List.mem_filterMap.mpr ⟨Formula.symmetry r, h, rfl⟩

/-- Every literal in the closure is forced by any model of `L`. -/
theorem closure_holds {L : List Formula} (I : Interp)
    (hI : ∀ f ∈ L, f.holds I) :
    ∀ l ∈ closure L, I.rel l.rel (I.ent l.ea) (I.ent l.eb) = l.val := by
  intro l hl
  rcases List.mem_append.mp hl with h | h
  · exact hI _ (mem_litsOf.mp h)
  · obtain ⟨m, hm, he⟩ := List.mem_filterMap.mp h
    by_cases hc : m.rel ∈ symmRels L
    · rw [if_pos hc, Option.some.injEq] at he
      subst he
      have hsym := hI _ (mem_symmRels.mp hc)
      have hlit := hI _ (mem_litsOf.mp hm)
      simp only [Formula.holds] at hsym hlit
      show I.rel m.rel (I.ent m.eb) (I.ent m.ea) = m.val
      cases hv : m.val with
      | true =>
        rw [hv] at hlit
        exact hsym _ _ hlit
      | false =>
        cases hb : I.rel m.rel (I.ent m.eb) (I.ent m.ea) with
        | true =>
          have := hsym _ _ hb
          rw [hv] at hlit
          rw [this] at hlit
          exact absurd hlit (by simp)
        | false => rfl
    · rw [if_neg hc] at he
      exact absurd he (by simp)

/-- A model of `L` rules out clashes in the closure. -/
theorem sat_to_consistent {L : List Formula} (h : Satisfiable L) :
    LitsConsistent (closure L) := by
  obtain ⟨I, hI⟩ := h
  intro l hl hneg
  have h1 := closure_holds I hI l hl
  have h2 := closure_holds I hI l.flip hneg
  rw [show l.flip.rel = l.rel from rfl, show l.flip.ea = l.ea from rfl,
    show l.flip.eb = l.eb from rfl, h1] at h2
  cases hv : l.val <;> rw [hv] at h2 <;> simp [Lit.flip, hv] at h2

/-- The canonical interpretation read off a clash-free closure:
entity constants denote themselves, and an atom is true exactly when
its positive literal is in the closure. -/
def interpOf (L : List Formula) : Interp :=
  Interp.mk id (fun r x y => decide (Lit.mk r x y true ∈ closure L))

/-- The closure is closed under swapping for symmetric relations. -/
theorem closure_swap {L : List Formula} {l : Lit} (hl : l ∈ closure L)
    (hs : l.rel ∈ symmRels L) : l.swap ∈ closure L := by
  rcases List.mem_append.mp hl with h | h
  · exact List.mem_append.mpr (Or.inr (List.mem_filterMap.mpr ⟨l, h, by rw [if_pos hs]⟩))
  · obtain ⟨m, hm, he⟩ := List.mem_filterMap.mp h
    by_cases hc : m.rel ∈ symmRels L
    · rw [if_pos hc, Option.some.injEq] at he
      subst he
      have : m.swap.swap = m := rfl
      rw [this]
      exact List.mem_append.mpr (Or.inl hm)
    · rw [if_neg hc] at he
      exact absurd he (by simp)

/-- A clash-free closure yields a model. -/
theorem consistent_to_sat {L : List Formula} (h : LitsConsistent (closure L)) :
    Satisfiable L := by
  refine ⟨interpOf L, ?_⟩
  intro f hf
  cases f with
  | lit r a b v =>
    show decide (Lit.mk r a b true ∈ closure L) = v
    have hmem : Lit.mk r a b v ∈ closure L :=
      List.mem_append.mpr (Or.inl (mem_litsOf.mpr hf))
    cases v with
    | true => exact decide_eq_true hmem
    | false => exact decide_eq_false (h _ hmem)
  | symmetry r =>
    intro x y hxy
    have hx : Lit.mk r x y true ∈ closure L :=
      of_decide_eq_true hxy
    exact decide_eq_true (closure_swap hx (mem_symmRels.mpr hf))

/-- Soundness and completeness of the decision procedure. -/
theorem decideSat_correct (L : List Formula) :
    decideSat L = true ↔ Satisfiable L := by
  unfold decideSat
  rw [decide_eq_true_eq]
  exact ⟨consistent_to_sat, sat_to_consistent⟩

/-! ### Concrete backend oracles -/

/-- The semantically correct backend: answers by the verified decision
procedure.  It plays the role of the real Z3 on this fragment (which
is decidable, so `unknown` never arises). -/
def semOracle : CheckOracle :=
  fun L => .ok (if decideSat L then CheckSatResult.sat else CheckSatResult.unsat)

theorem semOracle_of_sat (L : List Formula) (h : Satisfiable L) :
    semOracle L = .ok CheckSatResult.sat ∨ semOracle L = .ok CheckSatResult.unknown := by
  left
  unfold semOracle
  rw [if_pos ((decideSat_correct L).mpr h)]

theorem semOracle_of_unsat (L : List Formula) (h : ¬ Satisfiable L) :
    semOracle L = .ok CheckSatResult.unsat := by
  unfold semOracle
  rw [if_neg (fun hb => h ((decideSat_correct L).mp hb))]

/-- A backend that answers `sat` on everything. -/
def okSatOracle : CheckOracle := fun _ => .ok CheckSatResult.sat

/-- A backend that answers `unknown` on everything (a decision
procedure that always gives up). -/
def unknownOracle : CheckOracle := fun _ => .ok CheckSatResult.unknown

/-- A backend whose `check()` raises (e.g. a cancelled solver). -/
def errOracle : CheckOracle := fun _ => .error "interrupted"

end Z3POC

namespace Z3POC

/-! ### Structural lemmas about the pipeline -/

/-- Looking up a key-indexed table built from a name list. -/
theorem lookup_keyed {β : Type} (g : String → β) (ns : List String) (n : String) :
    (ns.map (fun m => (m, g m))).lookup n = if n ∈ ns then some (g n) else none := by
  induction ns with
  | nil => simp [List.lookup]
  | cons m ms ih =>
    by_cases h : n = m
    · subst h
      simp [List.lookup]
    · have hbeq : (n == m) = false := beq_eq_false_iff_ne.mpr h
      simp [List.lookup, hbeq, ih, h]

theorem entityTable_lookup (rels : List Relationship) (n : String) :
    (entityTable rels).lookup n =
      if n ∈ entityNames rels then some (Entity.mk n (some n)) else none :=
  lookup_keyed (fun m => Entity.mk m (some m)) (entityNames rels) n

theorem relationTable_lookup (rels : List Relationship) (n : String) :
    (relationTable rels).lookup n =
      if n ∈ relationNames rels then some (Relation.mk n (some n)) else none :=
  lookup_keyed (fun m => Relation.mk m (some m)) (relationNames rels) n

theorem mem_entityNames_person1 {r : Relationship} {rels : List Relationship}
    (h : r ∈ rels) : r.person1 ∈ entityNames rels := by
  unfold entityNames
  exact List.mem_dedup.mpr (List.mem_append.mpr (Or.inl (List.mem_map_of_mem _ h)))

theorem mem_entityNames_person2 {r : Relationship} {rels : List Relationship}
    (h : r ∈ rels) : r.person2 ∈ entityNames rels := by
  unfold entityNames
  exact List.mem_dedup.mpr (List.mem_append.mpr (Or.inr (List.mem_map_of_mem _ h)))

theorem mem_relationNames {r : Relationship} {rels : List Relationship}
    (h : r ∈ rels) : r.relation ∈ relationNames rels := by
  unfold relationNames
  exact List.mem_dedup.mpr (List.mem_map_of_mem _ h)

/-- On the tables derived from the full fact list, the assertion loop
never fails and appends exactly the fact literals, in order. -/
theorem addFactAssertions_ok (allRels : List Relationship) :
    ∀ (rels : List Relationship) (s : SolverState), (∀ r ∈ rels, r ∈ allRels) →
      addFactAssertions s rels (entityTable allRels) (relationTable allRels) =
        .ok (SolverState.mk (s.assertions ++ factLits rels) s.marks) := by
  intro rels
  induction rels with
  | nil =>
    intro s _
    simp [addFactAssertions, factLits]
  | cons r rest ih =>
    intro s hmem
    have hr : r ∈ allRels := hmem r (List.mem_cons_self r rest)
    unfold addFactAssertions
    rw [relationTable_lookup, entityTable_lookup, entityTable_lookup,
      if_pos (mem_relationNames hr), if_pos (mem_entityNames_person1 hr),
      if_pos (mem_entityNames_person2 hr)]
    show addFactAssertions (SolverState.add s (Formula.lit r.relation r.person1 r.person2 r.value))
        rest (entityTable allRels) (relationTable allRels) = _
    rw [ih _ (fun x hx => hmem x (List.mem_cons_of_mem r hx))]
    simp [SolverState.add, factLits]

/-- `add_relationship_assertions` on a fresh solver with the derived
tables: the base assertion set is exactly `baseFormulas`. -/
theorem add_relationship_assertions_base (rels : List Relationship) :
    add_relationship_assertions SolverState.empty rels (entityTable rels) (relationTable rels) =
      .ok (SolverState.mk (baseFormulas rels) []) := by
  unfold add_relationship_assertions
  rw [addFactAssertions_ok rels rels SolverState.empty (fun _ h => h)]
  rw [relationTable_lookup]
  by_cases h : "sibling" ∈ relationNames rels
  · rw [if_pos h]
    simp [SolverState.add, SolverState.empty, baseFormulas, h]
  · rw [if_neg h]
    simp [SolverState.empty, baseFormulas, h]

/-- A pushed-then-popped probe scope restores the solver state. -/
theorem probe_roundtrip (s : SolverState) (f : Formula) :
    ((s.push).add f).pop = s := by
  unfold SolverState.push SolverState.add SolverState.pop
  simp [List.take_left]

/-- First probe: if `F` with the negated query is unsatisfiable
(answered `unsat`), the verdict is confirmed and the solver state is
restored. -/
theorem evaluate_query_confirmed (check : CheckOracle) (s : SolverState) (q : Formula)
    (h1 : check (s.assertions ++ [q.negate]) = .ok CheckSatResult.unsat) :
    evaluate_query check s q =
      (.ok (true, "The relationship is confirmed by the given facts.", true), s) := by
  unfold evaluate_query
  show (match check ((s.push).add q.negate).assertions with
    | .error e => _
    | .ok neg_result => _) = _
  rw [show ((s.push).add q.negate).assertions = s.assertions ++ [q.negate] from rfl, h1]
  simp [probe_roundtrip]

/-- Second probe: with a non-`unsat` answer on the negated query, the
verdict is decided by the answer on the positive query, and the solver
state is restored. -/
theorem evaluate_query_second (check : CheckOracle) (s : SolverState) (q : Formula)
    (r1 r2 : CheckSatResult) (hr1 : r1 ≠ CheckSatResult.unsat)
    (h1 : check (s.assertions ++ [q.negate]) = .ok r1)
    (h2 : check (s.assertions ++ [q]) = .ok r2) :
    evaluate_query check s q =
      (if r2 = CheckSatResult.unsat then
        (.ok (false, "The relationship is contradicted by the given facts.", true), s)
      else
        (.ok (false, "The relationship is possible but not confirmed by the given facts.",
          true), s)) := by
  unfold evaluate_query
  show (match check ((s.push).add q.negate).assertions with
    | .error e => _
    | .ok neg_result => _) = _
  rw [show ((s.push).add q.negate).assertions = s.assertions ++ [q.negate] from rfl, h1]
  show (if r1 = CheckSatResult.unsat then _ else _) = _
  rw [if_neg hr1, probe_roundtrip]
  show (match check ((s.push).add q).assertions with
    | .error e => _
    | .ok pos_result => _) = _
  rw [show ((s.push).add q).assertions = s.assertions ++ [q] from rfl, h2]
  by_cases h : r2 = CheckSatResult.unsat
  · simp [h, probe_roundtrip]
  · simp [h, probe_roundtrip]

/-- `analyze_relationships` unfolded past the (never-failing) symbol
construction and a successful query parse: the base check gates the
two-sided probe. -/
theorem analyze_relationships_unfold (check : CheckOracle) (rels : List Relationship)
    (qs : String) (q : Formula)
    (hq : parse_query qs (entityTable rels) (relationTable rels) = .ok q) :
    analyze_relationships check (RelationshipQuery.mk rels qs) =
      (match check (baseFormulas rels) with
      | .error e => .error ("Error analyzing relationships: " ++ e)
      | .ok base_result =>
        if base_result = CheckSatResult.unsat then
          .ok (RelationshipResult.mk false "The relationships are contradictory." false)
        else
          match (evaluate_query check (SolverState.mk (baseFormulas rels) []) q).1 with
          | .error e => .error e
          | .ok rt => .ok (RelationshipResult.mk rt.1 rt.2.1 rt.2.2)) := by
  unfold analyze_relationships
  show (match add_relationship_assertions SolverState.empty rels (entityTable rels)
      (relationTable rels) with
    | .error e => _
    | .ok s1 => _) = _
  rw [add_relationship_assertions_base]
  show (match parse_query qs (entityTable rels) (relationTable rels) with
    | .error e => _
    | .ok query_expr => _) = _
  rw [hq]

/-- Claim C1: for every relationship query whose symbols parse
successfully, `analyze_relationships` implements the three-check
entailment protocol — an unsatisfiable fact base returns
`{result: false, is_satisfiable: false}` immediately; otherwise an
unsatisfiable `F ∧ ¬Q` returns `{result: true, is_satisfiable: true}`
(confirmed); otherwise an unsatisfiable `F ∧ Q` returns
`{result: false, is_satisfiable: true}` (contradicted); otherwise
`{result: false, is_satisfiable: true}` (possible but not
confirmed). -/
theorem analyze_relationships_protocol (check : CheckOracle) (rels : List Relationship)
    (qs : String) (q : Formula) (r0 r1 r2 : CheckSatResult)
    (hq : parse_query qs (entityTable rels) (relationTable rels) = .ok q)
    (h0 : check (baseFormulas rels) = .ok r0)
    (h1 : check (baseFormulas rels ++ [q.negate]) = .ok r1)
    (h2 : check (baseFormulas rels ++ [q]) = .ok r2) :
    analyze_relationships check (RelationshipQuery.mk rels qs) =
      (if r0 = CheckSatResult.unsat then
        .ok (RelationshipResult.mk false "The relationships are contradictory." false)
      else if r1 = CheckSatResult.unsat then
        .ok (RelationshipResult.mk true
          "The relationship is confirmed by the given facts." true)
      else if r2 = CheckSatResult.unsat then
        .ok (RelationshipResult.mk false
          "The relationship is contradicted by the given facts." true)
      else
        .ok (RelationshipResult.mk false
          "The relationship is possible but not confirmed by the given facts." true)) := by
  rw [analyze_relationships_unfold check rels qs q hq, h0]
  by_cases hr0 : r0 = CheckSatResult.unsat
  · simp [hr0]
  · rw [if_neg hr0]
    show (if r0 = CheckSatResult.unsat then _ else _) = _
    rw [if_neg hr0]
    by_cases hr1 : r1 = CheckSatResult.unsat
    · rw [evaluate_query_confirmed check (SolverState.mk (baseFormulas rels) []) q
        (hr1 ▸ h1)]
      simp [hr1]
    · rw [evaluate_query_second check (SolverState.mk (baseFormulas rels) []) q
        r1 r2 hr1 h1 h2]
      rw [if_neg hr1]
      by_cases hr2 : r2 = CheckSatResult.unsat
      · simp [hr2]
      · simp [hr2]

/-- Witness for C1: a single fact `likes(A, B)` and the query
`likes(A, B)` under a backend answering `sat` everywhere takes the
final branch of the protocol. -/
theorem analyze_relationships_protocol_w :
    analyze_relationships okSatOracle
        (RelationshipQuery.mk [Relationship.mk "A" "B" "likes" true] "likes(A, B)") =
      .ok (RelationshipResult.mk false
        "The relationship is possible but not confirmed by the given facts." true) := by
  rw [analyze_relationships_protocol okSatOracle [Relationship.mk "A" "B" "likes" true]
    "likes(A, B)" (Formula.lit "likes" "A" "B" true)
    CheckSatResult.sat CheckSatResult.sat CheckSatResult.sat (by decide) rfl rfl rfl]
  decide

/-- Claim C2: whenever some fact names the `"sibling"` relation, the
symmetry axiom is asserted after all facts, unconditionally; and for
any sound-and-refutation-complete backend, the single fact
`sibling(X, Y) = true` confirms the query `sibling(Y, X)` with verdict
`{result: true, is_satisfiable: true}`. -/
theorem sibling_symmetry_confirmed (check : CheckOracle)
    (hA : ∀ L, Satisfiable L →
      check L = .ok CheckSatResult.sat ∨ check L = .ok CheckSatResult.unknown)
    (hB : ∀ L, ¬ Satisfiable L → check L = .ok CheckSatResult.unsat)
    (X Y : String) (qs : String)
    (hq : parse_query qs (entityTable [Relationship.mk X Y "sibling" true])
        (relationTable [Relationship.mk X Y "sibling" true]) =
      .ok (Formula.lit "sibling" Y X true)) :
    (∀ rels : List Relationship, "sibling" ∈ relationNames rels →
      baseFormulas rels = factLits rels ++ [Formula.symmetry "sibling"]) ∧
    analyze_relationships check
        (RelationshipQuery.mk [Relationship.mk X Y "sibling" true] qs) =
      .ok (RelationshipResult.mk true
        "The relationship is confirmed by the given facts." true) := by
  have hF : baseFormulas [Relationship.mk X Y "sibling" true] =
      [Formula.lit "sibling" X Y true, Formula.symmetry "sibling"] := by
    simp [baseFormulas, factLits, relationNames]
  constructor
  · intro rels h
    unfold baseFormulas
    rw [if_pos h]
  · have hsatF : Satisfiable (baseFormulas [Relationship.mk X Y "sibling" true]) := by
      rw [hF]
      refine ⟨Interp.mk id (fun _ _ _ => true), ?_⟩
      intro f hf
      rcases List.mem_cons.mp hf with h | hf2
      · subst h
        rfl
      · rcases List.mem_cons.mp hf2 with h | h
        · subst h
          intro x y _
          rfl
        · exact absurd h (by simp)
    have hunsatN : ¬ Satisfiable (baseFormulas [Relationship.mk X Y "sibling" true] ++
        [(Formula.lit "sibling" Y X true).negate]) := by
      rw [hF]
      rintro ⟨I, hI⟩
      have h1 : I.rel "sibling" (I.ent X) (I.ent Y) = true :=
        hI (Formula.lit "sibling" X Y true) (by simp)
      have h2 : ∀ x y, I.rel "sibling" x y = true → I.rel "sibling" y x = true :=
        hI (Formula.symmetry "sibling") (by simp)
      have h3 : I.rel "sibling" (I.ent Y) (I.ent X) = false :=
        hI (Formula.lit "sibling" Y X false) (by simp [Formula.negate])
      have := h2 _ _ h1
      rw [h3] at this
      exact absurd this (by simp)
    have hend := evaluate_query_confirmed check
      (SolverState.mk (baseFormulas [Relationship.mk X Y "sibling" true]) [])
      (Formula.lit "sibling" Y X true) (hB _ hunsatN)
    rcases hA _ hsatF with hc | hc
    · rw [analyze_relationships_unfold check _ qs _ hq, hc, hend]
      rfl
    · rw [analyze_relationships_unfold check _ qs _ hq, hc, hend]
      rfl

/-- Witness for C2: the fact `sibling(Alice, Bob)` and the query
`sibling(Bob, Alice)` under the verified decision-procedure backend. -/
theorem sibling_symmetry_confirmed_w :
    analyze_relationships semOracle
        (RelationshipQuery.mk [Relationship.mk "Alice" "Bob" "sibling" true]
          "sibling(Bob, Alice)") =
      .ok (RelationshipResult.mk true
        "The relationship is confirmed by the given facts." true) :=
  (sibling_symmetry_confirmed semOracle semOracle_of_sat semOracle_of_unsat
    "Alice" "Bob" "sibling(Bob, Alice)" (by decide)).2

/-- A raised `check()` on the first probe propagates with the probe
scope still pushed: the function body has no `finally`, so the `pop`
is skipped. -/
theorem evaluate_query_err_first (check : CheckOracle) (s : SolverState) (q : Formula)
    (e : String) (h : check (s.assertions ++ [q.negate]) = .error e) :
    evaluate_query check s q =
      (.error ("Error evaluating query: " ++ e), (s.push).add q.negate) := by
  unfold evaluate_query
  show (match check ((s.push).add q.negate).assertions with
    | .error e => _
    | .ok neg_result => _) = _
  rw [show ((s.push).add q.negate).assertions = s.assertions ++ [q.negate] from rfl, h]

/-- A raised `check()` on the second probe likewise leaks its scope. -/
theorem evaluate_query_err_second (check : CheckOracle) (s : SolverState) (q : Formula)
    (r1 : CheckSatResult) (e : String) (hr1 : r1 ≠ CheckSatResult.unsat)
    (h1 : check (s.assertions ++ [q.negate]) = .ok r1)
    (h2 : check (s.assertions ++ [q]) = .error e) :
    evaluate_query check s q =
      (.error ("Error evaluating query: " ++ e), (s.push).add q) := by
  unfold evaluate_query
  show (match check ((s.push).add q.negate).assertions with
    | .error e => _
    | .ok neg_result => _) = _
  rw [show ((s.push).add q.negate).assertions = s.assertions ++ [q.negate] from rfl, h1]
  show (if r1 = CheckSatResult.unsat then _ else _) = _
  rw [if_neg hr1, probe_roundtrip]
  show (match check ((s.push).add q).assertions with
    | .error e => _
    | .ok pos_result => _) = _
  rw [show ((s.push).add q).assertions = s.assertions ++ [q] from rfl, h2]

/-- Counterexample to C3: a `check()` that raises during the first
probe makes `evaluate_query` return the error with the probe scope
still pushed — the final solver state differs from the entry state,
so the base scope is not restored before the error propagates. -/
theorem evaluate_query_scope_leak :
    (evaluate_query errOracle (SolverState.mk [Formula.lit "r" "a" "b" true] [])
        (Formula.lit "r" "a" "b" true)).1 =
      .error "Error evaluating query: interrupted" ∧
    (evaluate_query errOracle (SolverState.mk [Formula.lit "r" "a" "b" true] [])
        (Formula.lit "r" "a" "b" true)).2 ≠
      SolverState.mk [Formula.lit "r" "a" "b" true] [] := by
  decide

/-- Claim C3 (amended): each of the two probes beyond the base check
is a scoped push/assert/check/pop sequence, and whenever
`evaluate_query` returns normally the base solver state is restored
exactly; but the scopes are not exception-safe — a `check()` that
raises mid-probe propagates as an error with the probe scope still
pushed (the per-request solver is then discarded by the caller). -/
theorem evaluate_query_scope_behavior (check : CheckOracle) (s : SolverState)
    (q : Formula) :
    (∀ r, (evaluate_query check s q).1 = .ok r → (evaluate_query check s q).2 = s) ∧
    (∀ e, check (s.assertions ++ [q.negate]) = .error e →
      evaluate_query check s q =
        (.error ("Error evaluating query: " ++ e), (s.push).add q.negate)) := by
  constructor
  · intro r hr
    cases hc1 : check (s.assertions ++ [q.negate]) with
    | error e =>
      rw [evaluate_query_err_first check s q e hc1] at hr
      exact absurd hr (by simp)
    | ok r1 =>
      by_cases hr1 : r1 = CheckSatResult.unsat
      · subst hr1
        rw [evaluate_query_confirmed check s q hc1]
      · cases hc2 : check (s.assertions ++ [q]) with
        | error e =>
          rw [evaluate_query_err_second check s q r1 e hr1 hc1 hc2] at hr
          exact absurd hr (by simp)
        | ok r2 =>
          rw [evaluate_query_second check s q r1 r2 hr1 hc1 hc2]
          by_cases hr2 : r2 = CheckSatResult.unsat
          · simp [hr2]
          · simp [hr2]
  · intro e he
    exact evaluate_query_err_first check s q e he

/-- Witness for the amended C3: the leaked state of an interrupted
first probe, obtained from the theorem at a concrete solver state. -/
theorem evaluate_query_scope_behavior_w :
    evaluate_query errOracle (SolverState.mk [Formula.lit "p" "c" "d" true] [])
        (Formula.lit "p" "d" "c" true) =
      (.error ("Error evaluating query: " ++ "interrupted"),
        ((SolverState.mk [Formula.lit "p" "c" "d" true] []).push).add
          (Formula.lit "p" "d" "c" true).negate) :=
  (evaluate_query_scope_behavior errOracle
    (SolverState.mk [Formula.lit "p" "c" "d" true] [])
    (Formula.lit "p" "d" "c" true)).2 "interrupted" rfl

/-- Counterexample to C4: with a backend that answers `unknown` on
every check, `analyze_relationships` does not surface an error — it
returns the definite verdict `{result: false, is_satisfiable: true}`
(possible but not confirmed). -/
theorem analyze_unknown_not_error :
    analyze_relationships unknownOracle
        (RelationshipQuery.mk [Relationship.mk "A" "B" "likes" true] "likes(A, B)") =
      .ok (RelationshipResult.mk false
        "The relationship is possible but not confirmed by the given facts." true) := by
  decide

/-- Claim C4 (amended): an `unknown` backend answer is never surfaced
as an error by the entailment pipeline; it is treated like a
satisfiable answer at every step — the base check proceeds (only a
literal `unsat` triggers the contradictory verdict) and `unknown` at
both probes falls through to the definite verdict `{result: false,
is_satisfiable: true}` (possible but not confirmed).  Only a raised
backend exception is surfaced as an error. -/
theorem analyze_unknown_possible (check : CheckOracle) (rels : List Relationship)
    (qs : String) (q : Formula)
    (hq : parse_query qs (entityTable rels) (relationTable rels) = .ok q)
    (h0 : check (baseFormulas rels) = .ok CheckSatResult.unknown)
    (h1 : check (baseFormulas rels ++ [q.negate]) = .ok CheckSatResult.unknown)
    (h2 : check (baseFormulas rels ++ [q]) = .ok CheckSatResult.unknown) :
    analyze_relationships check (RelationshipQuery.mk rels qs) =
      .ok (RelationshipResult.mk false
        "The relationship is possible but not confirmed by the given facts." true) := by
  rw [analyze_relationships_unfold check rels qs q hq, h0,
    evaluate_query_second check (SolverState.mk (baseFormulas rels) []) q
      CheckSatResult.unknown CheckSatResult.unknown (by decide) h1 h2]
  rfl

/-- Witness for the amended C4: `unknown` on every check at a concrete
query yields the possible-but-not-confirmed verdict. -/
theorem analyze_unknown_possible_w :
    analyze_relationships unknownOracle
        (RelationshipQuery.mk [Relationship.mk "C" "D" "knows" true] "knows(C, D)") =
      .ok (RelationshipResult.mk false
        "The relationship is possible but not confirmed by the given facts." true) :=
  analyze_unknown_possible unknownOracle [Relationship.mk "C" "D" "knows" true]
    "knows(C, D)" (Formula.lit "knows" "C" "D" true) (by decide) rfl rfl rfl

end Z3POC

namespace Z3MCP

/-- Claim C5: for every solve that completes, `Solution.status` is the
backend's literal result tag and `is_satisfiable` holds iff the check
result is exactly `sat`; in particular `unknown` yields
`is_satisfiable = false` with status `"unknown"`, not a silent
unsatisfiable. -/
theorem extract_solution_status (result : CheckSatResult) (model : Option ModelRef)
    (vars : List (String × Z3Var)) (sol : Solution)
    (h : extract_solution result model vars = .ok sol) :
    sol.status = result.toStr ∧
    (sol.is_satisfiable = true ↔ result = CheckSatResult.sat) ∧
    (result = CheckSatResult.unknown →
      sol.is_satisfiable = false ∧ sol.status = "unknown") := by
  unfold extract_solution at h
  simp only [Except.ok.injEq] at h
  subst h
  refine ⟨rfl, by simp, ?_⟩
  intro hu
  subst hu
  exact ⟨rfl, rfl⟩

/-- Witness for C5: the `unknown` outcome at a concrete (empty)
variable table. -/
theorem extract_solution_status_w :
    (Solution.mk [] false "unknown").status = CheckSatResult.unknown.toStr ∧
    ((Solution.mk [] false "unknown").is_satisfiable = true ↔
      CheckSatResult.unknown = CheckSatResult.sat) ∧
    (CheckSatResult.unknown = CheckSatResult.unknown →
      (Solution.mk [] false "unknown").is_satisfiable = false ∧
      (Solution.mk [] false "unknown").status = "unknown") :=
  extract_solution_status CheckSatResult.unknown none []
    (Solution.mk [] false "unknown") (by decide)

/-- Claim C6: for a real-sorted variable whose model value has the
canonical ratio form `p/q`, extraction returns the quotient `p/q`;
otherwise the canonical form is parsed as a plain decimal; and a value
whose canonical form is `"5/2"` extracts as 5/2 = 2.5. -/
theorem get_z3_value_real_quotient (model : ModelRef) (v : Z3Var) (mv : ModelVal)
    (hm : model v = some mv) (hs : v.sort = Z3SortTag.real) :
    (∀ ps qstr p q, pyContains mv.str '/' = true → pySplit mv.str '/' = [ps, qstr] →
      pyInt ps = some p → pyInt qstr = some q → q ≠ 0 →
      get_z3_value model v = some (.r ((p : ℚ) / (q : ℚ)))) ∧
    (pyContains mv.str '/' = false →
      get_z3_value model v = (pyFloat mv.str).map Z3Value.r) ∧
    (mv.str = "5/2" →
      get_z3_value model v = some (.r ((5 : ℚ) / 2)) ∧ ((5 : ℚ) / 2 = 2.5)) := by
  obtain ⟨nm, st⟩ := v
  have hs2 : st = Z3SortTag.real := hs
  subst hs2
  have hbase : get_z3_value model (Z3Var.mk nm Z3SortTag.real) =
      (if pyContains mv.str '/' then
        match pySplit mv.str '/' with
        | [num_str, den_str] =>
          match pyInt num_str, pyInt den_str with
          | some p, some q =>
            if q = 0 then none else some (Z3Value.r ((p : ℚ) / (q : ℚ)))
          | _, _ => none
        | _ => none
      else (pyFloat mv.str).map Z3Value.r) := by
    unfold get_z3_value
    rw [hm]
  refine ⟨?_, ?_, ?_⟩
  · intro ps qstr p q hc hsp hp hq hq0
    rw [hbase, if_pos hc, hsp]
    show (match pyInt ps, pyInt qstr with
      | some p, some q =>
        if q = 0 then none else some (Z3Value.r ((p : ℚ) / (q : ℚ)))
      | _, _ => none) = _
    rw [hp, hq]
    show (if q = 0 then none else some (Z3Value.r ((p : ℚ) / (q : ℚ)))) = _
    rw [if_neg hq0]
  · intro hc
    rw [hbase, if_neg (by simp [hc])]
  · intro hstr
    constructor
    · have h1 : get_z3_value model (Z3Var.mk nm Z3SortTag.real) =
          some (Z3Value.r (((5 : Int) : ℚ) / ((2 : Int) : ℚ))) := by
        rw [hbase, hstr]
        rfl
      rw [h1]
      norm_num
    · norm_num

/-- Witness for C6: a concrete model binding a real variable to the
canonical form `"5/2"`. -/
theorem get_z3_value_real_quotient_w :
    get_z3_value (fun z => if z.name = "x" then some (ModelVal.mk "5/2" false) else none)
        (Z3Var.mk "x" Z3SortTag.real) =
      some (Z3Value.r ((5 : ℚ) / 2)) ∧ ((5 : ℚ) / 2 = 2.5) :=
  ((get_z3_value_real_quotient
    (fun z => if z.name = "x" then some (ModelVal.mk "5/2" false) else none)
    (Z3Var.mk "x" Z3SortTag.real) (ModelVal.mk "5/2" false) (by decide) rfl).2.2) rfl

/-- Claim C7: a failing constraint expression aborts the whole batch —
the returned error carries the offending expression text, and no
constraint after the failing one influences the outcome (the theorem
holds for every tail `post`); no partial constraint list is
returned. -/
theorem create_constraints_fail_fast {α : Type}
    (evalE : List (String × Z3Var) → String → Except String α)
    (vars : List (String × Z3Var)) (pre : List Constraint) (bad : Constraint)
    (post : List Constraint) (msg : String)
    (hpre : ∀ c ∈ pre, ∃ e, evalE vars c.expression = .ok e)
    (hbad : evalE vars bad.expression = .error msg) :
    create_constraints evalE (pre ++ bad :: post) vars =
      .error ("Error parsing constraint " ++ bad.expression ++ ": " ++ msg) := by
  induction pre with
  | nil =>
    show create_constraints evalE (bad :: post) vars = _
    unfold create_constraints parse_constraint
    rw [hbad]
  | cons c rest ih =>
    obtain ⟨e, he⟩ := hpre c (List.mem_cons_self c rest)
    show create_constraints evalE (c :: (rest ++ bad :: post)) vars = _
    unfold create_constraints parse_constraint
    rw [he]
    show (match create_constraints evalE (rest ++ bad :: post) vars with
      | Except.ok l => Except.ok (e :: l)
      | Except.error err => Except.error err) = _
    rw [ih (fun x hx => hpre x (List.mem_cons_of_mem c hx))]

/-- A sandboxed-eval oracle for the C7 witness: it resolves one
well-formed expression and rejects everything else the way Python
`eval` reports an unresolvable name. -/
def evalW : List (String × Z3Var) → String → Except String Unit :=
  fun _ s => if s = "x > 0" then .ok () else .error "name y is not defined"

/-- Witness for C7: the second of three constraints fails; the batch
aborts with that constraint's expression in the error. -/
theorem create_constraints_fail_fast_w :
    create_constraints evalW
        [Constraint.mk "x > 0" "", Constraint.mk "y + 1" "", Constraint.mk "x < 9" ""] [] =
      .error ("Error parsing constraint " ++ "y + 1" ++ ": " ++ "name y is not defined") :=
  create_constraints_fail_fast evalW [] [Constraint.mk "x > 0" ""]
    (Constraint.mk "y + 1" "") [Constraint.mk "x < 9" ""] "name y is not defined"
    (by
      intro c hc
      rw [List.mem_singleton] at hc
      subst hc
      exact ⟨(), by decide⟩)
    (by decide)

end Z3MCP

namespace Z3MCP

/-- Claim C9: on a satisfiable solve, a variable with no model binding
or a failing conversion is simply omitted from `values` — extraction
still succeeds — and every declared variable the model assigns a
convertible value to appears in the mapping. -/
theorem extract_solution_omission (m : ModelRef) (vars : List (String × Z3Var)) :
    (∃ sol, extract_solution CheckSatResult.sat (some m) vars = .ok sol) ∧
    (∀ sol, extract_solution CheckSatResult.sat (some m) vars = .ok sol →
      ∀ n v, ((n, v) ∈ sol.values ↔ ∃ z, (n, z) ∈ vars ∧ get_z3_value m z = some v)) := by
  constructor
  · exact ⟨_, rfl⟩
  · intro sol h n v
    unfold extract_solution at h
    simp only [Except.ok.injEq] at h
    subst h
    show (n, v) ∈ vars.filterMap
      (fun nv => (get_z3_value m nv.2).map (fun w => (nv.1, w))) ↔ _
    constructor
    · intro hmem
      obtain ⟨nv, hnv, he⟩ := List.mem_filterMap.mp hmem
      cases hg : get_z3_value m nv.2 with
      | none =>
        rw [hg] at he
        exact absurd he (by simp)
      | some w =>
        rw [hg] at he
        simp only [Option.map_some', Option.some.injEq, Prod.mk.injEq] at he
        obtain ⟨he1, he2⟩ := he
        refine ⟨nv.2, ?_, ?_⟩
        · rw [← he1]
          exact hnv
        · rw [hg, he2]
    · rintro ⟨z, hz, hv⟩
      refine List.mem_filterMap.mpr ⟨(n, z), hz, ?_⟩
      show (get_z3_value m z).map (fun w => (n, w)) = some (n, v)
      rw [hv]
      rfl

/-- A concrete model for the C9 witness: only the symbol `x` is
bound. -/
def modelW : ModelRef :=
  fun z => if z.name = "x" then some (ModelVal.mk "3" false) else none

/-- Witness for C9: with `x` bound to `3` and `y` unbound, the entry
for `x` appears in the extracted mapping. -/
theorem extract_solution_omission_w :
    ("x", Z3Value.i 3) ∈
      (Solution.mk [("x", Z3Value.i 3)] true "sat").values :=
  ((extract_solution_omission modelW
      [("x", Z3Var.mk "x" Z3SortTag.int), ("y", Z3Var.mk "y" Z3SortTag.int)]).2
    (Solution.mk [("x", Z3Value.i 3)] true "sat") (by decide) "x" (Z3Value.i 3)).mpr
    ⟨Z3Var.mk "x" Z3SortTag.int, by decide, by decide⟩

/-- Claim C10: the extracted `values` mapping only ever contains names
of declared variables (extraction iterates the declared symbol table),
and it is empty whenever the result is not `sat` (in particular on
`unsat` and `unknown`) or no model was produced. -/
theorem extract_solution_keys (result : CheckSatResult) (model : Option ModelRef)
    (vars : List (String × Z3Var)) :
    ∀ sol, extract_solution result model vars = .ok sol →
      ((∀ n v, (n, v) ∈ sol.values → n ∈ vars.map Prod.fst) ∧
       (result ≠ CheckSatResult.sat → sol.values = []) ∧
       (model = none → sol.values = [])) := by
  intro sol h
  unfold extract_solution at h
  simp only [Except.ok.injEq] at h
  subst h
  refine ⟨?_, ?_, ?_⟩
  · intro n v hmem
    show n ∈ vars.map Prod.fst
    cases hd : decide (result = CheckSatResult.sat) with
    | false =>
      rw [hd] at hmem
      exact absurd hmem (by simp)
    | true =>
      rw [hd] at hmem
      cases model with
      | none => exact absurd hmem (by simp)
      | some m =>
        obtain ⟨nv, hnv, he⟩ := List.mem_filterMap.mp hmem
        cases hg : get_z3_value m nv.2 with
        | none =>
          rw [hg] at he
          exact absurd he (by simp)
        | some w =>
          rw [hg] at he
          simp only [Option.map_some', Option.some.injEq, Prod.mk.injEq] at he
          rw [← he.1]
          exact List.mem_map_of_mem Prod.fst hnv
  · intro hne
    have hd : decide (result = CheckSatResult.sat) = false := decide_eq_false hne
    simp only [hd]
  · intro hm
    subst hm
    cases hd : decide (result = CheckSatResult.sat) <;> simp [hd]

/-- Witness for C10: an `unsat` result with a nonempty symbol table
extracts an empty mapping. -/
theorem extract_solution_keys_w :
    (Solution.mk [] false "unsat").values = [] :=
  ((extract_solution_keys CheckSatResult.unsat none [("x", Z3Var.mk "x" Z3SortTag.int)]
    (Solution.mk [] false "unsat") (by decide)).2.1) (by decide)

end Z3MCP

namespace Z3POC

/-- The query shape the specification prescribes, written from the
spec's words (for comparison with `parse_query`): the string must
match `name(arg1, arg2)` — exactly one `(`, the matching `)` closing
the string with no other `)` inside, and exactly two comma-separated
argument names between them. -/
def specQueryWellFormed (s : String) : Bool :=
  match pySplit s '(' with
  | [_, rest] =>
    decide (rest.data ≠ []) &&
    decide (rest.data.getLast? = some ')') &&
    ! pyContains (String.mk rest.data.dropLast) ')' &&
    decide ((pySplit (String.mk rest.data.dropLast) ',').length = 2)
  | _ => false

/-- Counterexample to C8: `parse_query` accepts a query with trailing
text after the first `)` — a string that does not match the
specification's `name(arg1, arg2)` pattern — because the code reads
only the text before the first `)` and ignores the rest. -/
theorem parse_query_trailing_text :
    specQueryWellFormed "likes(A, B) x" = false ∧
    parse_query "likes(A, B) x"
        (entityTable [Relationship.mk "A" "B" "likes" true])
        (relationTable [Relationship.mk "A" "B" "likes" true]) =
      .ok (Formula.lit "likes" "A" "B" true) := by
  decide

/-- Claim C8 (amended): `parse_query` accepts query strings with
exactly one `(` and at least one `)` after it; the relation name is
the stripped text before `(`, the two arguments are the two
comma-separated stripped names read from the text before the first
`)`, and any text after the first `)` is ignored (so strings deviating
from `name(arg1, arg2)` only by trailing text still parse).  Every
other deviation fails with an error naming the defect: a `(`-count or
missing-`)` defect reports the invalid format, an argument count other
than two reports the two-entity requirement, and an undeclared
relation or entity reports the unknown name. -/
theorem parse_query_behavior (query : String) (entities : List (String × Entity))
    (relations : List (String × Relation)) :
    ((pySplit query '(').length ≠ 2 →
      parse_query query entities relations = .error ("Invalid query format: " ++ query)) ∧
    (∀ p0 p1, pySplit query '(' = [p0, p1] → pyContains p1 ')' = false →
      parse_query query entities relations = .error ("Invalid query format: " ++ query)) ∧
    (∀ p0 p1, pySplit query '(' = [p0, p1] → pyContains p1 ')' = true →
      ((pySplit (pyStrip ((pySplit p1 ')').headD "")) ',').map pyStrip).length ≠ 2 →
      parse_query query entities relations =
        .error ("Query must involve exactly two entities: " ++ query)) ∧
    (∀ p0 p1 n1 n2, pySplit query '(' = [p0, p1] → pyContains p1 ')' = true →
      (pySplit (pyStrip ((pySplit p1 ')').headD "")) ',').map pyStrip = [n1, n2] →
      relations.lookup (pyStrip p0) = none →
      parse_query query entities relations =
        .error ("Unknown relation: " ++ pyStrip p0)) ∧
    (∀ p0 p1 n1 n2 relation, pySplit query '(' = [p0, p1] → pyContains p1 ')' = true →
      (pySplit (pyStrip ((pySplit p1 ')').headD "")) ',').map pyStrip = [n1, n2] →
      relations.lookup (pyStrip p0) = some relation →
      entities.lookup n1 = none →
      parse_query query entities relations = .error ("Unknown entity: " ++ n1)) ∧
    (∀ p0 p1 n1 n2 relation entity1, pySplit query '(' = [p0, p1] →
      pyContains p1 ')' = true →
      (pySplit (pyStrip ((pySplit p1 ')').headD "")) ',').map pyStrip = [n1, n2] →
      relations.lookup (pyStrip p0) = some relation →
      entities.lookup n1 = some entity1 →
      entities.lookup n2 = none →
      parse_query query entities relations = .error ("Unknown entity: " ++ n2)) ∧
    (∀ p0 p1 n1 n2 relation entity1 entity2 rf c1 c2,
      pySplit query '(' = [p0, p1] → pyContains p1 ')' = true →
      (pySplit (pyStrip ((pySplit p1 ')').headD "")) ',').map pyStrip = [n1, n2] →
      relations.lookup (pyStrip p0) = some relation →
      entities.lookup n1 = some entity1 →
      entities.lookup n2 = some entity2 →
      relation.z3_func = some rf →
      entity1.z3_const = some c1 →
      entity2.z3_const = some c2 →
      parse_query query entities relations = .ok (Formula.lit rf c1 c2 true)) := by
  refine ⟨?_, ?_, ?_, ?_, ?_, ?_, ?_⟩
  · intro hlen
    unfold parse_query
    cases hsp : pySplit query '(' with
    | nil => rfl
    | cons a t =>
      cases t with
      | nil => rfl
      | cons b t2 =>
        cases t2 with
        | nil => exact absurd (by rw [hsp]; rfl) hlen
        | cons c t3 => rfl
  · intro p0 p1 hsp hc
    unfold parse_query
    rw [hsp]
    show (if pyContains p1 ')' = true then _ else _) = _
    rw [if_neg (by simp [hc])]
  · intro p0 p1 hsp hc hlen
    unfold parse_query
    rw [hsp]
    show (if pyContains p1 ')' = true then _ else _) = _
    rw [if_pos hc]
    show (match (pySplit (pyStrip ((pySplit p1 ')').headD "")) ',').map pyStrip with
      | [n1, n2] => _
      | _ => Except.error ("Query must involve exactly two entities: " ++ query)) = _
    cases hq : (pySplit (pyStrip ((pySplit p1 ')').headD "")) ',').map pyStrip with
    | nil => rfl
    | cons a t =>
      cases t with
      | nil => rfl
      | cons b t2 =>
        cases t2 with
        | nil => exact absurd (by rw [hq]; rfl) hlen
        | cons c t3 => rfl
  · intro p0 p1 n1 n2 hsp hc hnames hrel
    unfold parse_query
    rw [hsp]
    show (if pyContains p1 ')' = true then _ else _) = _
    rw [if_pos hc]
    show (match (pySplit (pyStrip ((pySplit p1 ')').headD "")) ',').map pyStrip with
      | [n1, n2] => _
      | _ => _) = _
    rw [hnames]
    show (match List.lookup (pyStrip p0) relations with
      | none => _
      | some relation => _) = _
    rw [hrel]
  · intro p0 p1 n1 n2 relation hsp hc hnames hrel hent1
    unfold parse_query
    rw [hsp]
    show (if pyContains p1 ')' = true then _ else _) = _
    rw [if_pos hc]
    show (match (pySplit (pyStrip ((pySplit p1 ')').headD "")) ',').map pyStrip with
      | [n1, n2] => _
      | _ => _) = _
    rw [hnames]
    show (match List.lookup (pyStrip p0) relations with
      | none => _
      | some relation => _) = _
    rw [hrel]
    show (match List.lookup n1 entities with
      | none => _
      | some entity1 => _) = _
    rw [hent1]
  · intro p0 p1 n1 n2 relation entity1 hsp hc hnames hrel hent1 hent2
    unfold parse_query
    rw [hsp]
    show (if pyContains p1 ')' = true then _ else _) = _
    rw [if_pos hc]
    show (match (pySplit (pyStrip ((pySplit p1 ')').headD "")) ',').map pyStrip with
      | [n1, n2] => _
      | _ => _) = _
    rw [hnames]
    show (match List.lookup (pyStrip p0) relations with
      | none => _
      | some relation => _) = _
    rw [hrel]
    show (match List.lookup n1 entities with
      | none => _
      | some entity1 => _) = _
    rw [hent1]
    show (match List.lookup n2 entities with
      | none => _
      | some entity2 => _) = _
    rw [hent2]
  · intro p0 p1 n1 n2 relation entity1 entity2 rf c1 c2 hsp hc hnames hrel hent1 hent2
      hrf hc1 hc2
    unfold parse_query
    rw [hsp]
    show (if pyContains p1 ')' = true then _ else _) = _
    rw [if_pos hc]
    show (match (pySplit (pyStrip ((pySplit p1 ')').headD "")) ',').map pyStrip with
      | [n1, n2] => _
      | _ => _) = _
    rw [hnames]
    show (match List.lookup (pyStrip p0) relations with
      | none => _
      | some relation => _) = _
    rw [hrel]
    show (match List.lookup n1 entities with
      | none => _
      | some entity1 => _) = _
    rw [hent1]
    show (match List.lookup n2 entities with
      | none => _
      | some entity2 => _) = _
    rw [hent2]
    show (match relation.z3_func, entity1.z3_const, entity2.z3_const with
      | none, _, _ => _
      | some _, none, _ => _
      | some _, some _, none => _
      | some z3_func, some e1_const, some e2_const => _) = _
    rw [hrf, hc1, hc2]

/-- Witness for the amended C8: an undeclared relation name fails with
the unknown-relation error, and an undeclared second entity fails with
the unknown-entity error naming it. -/
theorem parse_query_behavior_w :
    (parse_query "foo(A, B)"
        (entityTable [Relationship.mk "A" "B" "likes" true])
        (relationTable [Relationship.mk "A" "B" "likes" true]) =
      .error ("Unknown relation: " ++ pyStrip "foo")) ∧
    (parse_query "likes(A, C)"
        (entityTable [Relationship.mk "A" "B" "likes" true])
        (relationTable [Relationship.mk "A" "B" "likes" true]) =
      .error ("Unknown entity: " ++ "C")) :=
  ⟨(parse_query_behavior "foo(A, B)"
      (entityTable [Relationship.mk "A" "B" "likes" true])
      (relationTable [Relationship.mk "A" "B" "likes" true])).2.2.2.1
    "foo" "A, B)" "A" "B" (by decide) (by decide) (by decide) (by decide),
   (parse_query_behavior "likes(A, C)"
      (entityTable [Relationship.mk "A" "B" "likes" true])
      (relationTable [Relationship.mk "A" "B" "likes" true])).2.2.2.2.2.1
    "likes" "A, C)" "A" "C" (Relation.mk "likes" (some "likes"))
    (Entity.mk "A" (some "A")) (by decide) (by decide) (by decide) (by decide)
    (by decide) (by decide)⟩

end Z3POC
